import Mathlib

/-!
Verification of the performance-metrics core of the ETF comparison project.

The embedding follows `src/helpers_business.py` and `src/model.py`.
Python floats are modelled exactly: quantities whose computation is purely
rational stay in `ℚ`; quantities that pass through `np.sqrt` or a fractional
power are valued in `ℝ`.  numpy conventions are kept: `np.std`/`np.var` use
population normalisation (divide by n), `np.cov` uses sample normalisation
(divide by n-1), and `np.corrcoef x y = cov(x,y) / sqrt(cov(x,x)*cov(y,y))`.
-/

/-- Field names of the dataclass `ETFPriceData` in `src/model.py` (lines 21-26). -/
def ETFPriceDataFields : List String := ["ticker", "date", "adj_close", "volume"]

/-- Field names of the dataclass `PerformanceMetrics` in `src/model.py`
(lines 29-40): ticker, period, total_return, annualized_return, volatility,
sharpe_ratio, max_drawdown, and the defaulted tracking_error, beta, correlation. -/
def performanceMetricsModelFields : List String :=
  ["ticker", "period", "total_return", "annualized_return", "volatility",
   "sharpe_ratio", "max_drawdown", "tracking_error", "beta", "correlation"]

/-- Keyword arguments passed to the `PerformanceMetrics(...)` constructor call at
the end of `calculate_performance_metrics` in `src/helpers_business.py`
(lines 85-99). -/
def performanceMetricsAssemblyKwargs : List String :=
  ["ticker", "period", "total_return", "annualized_return", "volatility",
   "sharpe_ratio", "sortino_ratio", "max_drawdown", "beta", "alpha",
   "r_squared", "tracking_error", "information_ratio"]

/-- `ETFPriceData` from `src/model.py`: one price observation.  The timestamp is
modelled as an integer. -/
structure ETFPriceData where
  ticker : String
  date : Int
  adj_close : ℚ
  volume : Option Int

/-- The values computed and passed to the record constructor by
`calculate_performance_metrics` (`src/helpers_business.py` lines 85-99).
The benchmark-relative fields are `Option`-valued: `none` models Python `None`. -/
structure ComputedMetrics where
  ticker : String
  period : String
  total_return : ℚ
  annualized_return : ℝ
  volatility : ℝ
  sharpe_ratio : ℝ
  sortino_ratio : ℝ
  max_drawdown : ℚ
  beta : Option ℚ
  alpha : Option ℝ
  r_squared : Option ℝ
  tracking_error : Option ℝ
  information_ratio : Option ℝ

/-- `calculate_returns` (`helpers_business.py` lines 14-17):
`prices[1:] / prices[:-1] - 1`, elementwise. -/
def calculate_returns (prices : List ℚ) : List ℚ :=
  (prices.zip prices.tail).map (fun p => p.2 / p.1 - 1)

/-- `np.mean`: sum divided by length (0 for the empty list in this embedding). -/
def npMean (l : List ℚ) : ℚ := l.sum / (l.length : ℚ)

/-- `np.var` with its default `ddof=0`: population variance. -/
def npVar (l : List ℚ) : ℚ := npMean (l.map (fun x => (x - npMean l) ^ 2))

/-- The off-diagonal entry `np.cov(x, y)[0, 1]` with numpy's default `ddof=1`:
sample covariance, sum of products of deviations divided by n-1. -/
def sampleCov (x y : List ℚ) : ℚ :=
  ((x.zip y).map (fun p => (p.1 - npMean x) * (p.2 - npMean y))).sum
    / ((x.length : ℚ) - 1)

/-- Product of the two diagonal entries of `np.cov(x, y)`: the square of the
denominator of `np.corrcoef(x, y)[0, 1]`. -/
def corrDenomSq (x y : List ℚ) : ℚ := sampleCov x x * sampleCov y y

/-- `np.corrcoef(x, y)[0, 1] = cov(x,y) / sqrt(cov(x,x) * cov(y,y))`. -/
noncomputable def npCorrcoef (x y : List ℚ) : ℝ :=
  ((sampleCov x y : ℚ) : ℝ) / Real.sqrt ((corrDenomSq x y : ℚ) : ℝ)

/-- `np.std(l) * np.sqrt(252)`: annualised population standard deviation. -/
noncomputable def npStdAnnualized (l : List ℚ) : ℝ :=
  Real.sqrt ((npVar l : ℚ) : ℝ) * Real.sqrt 252

/-- `np.cumprod`, with an explicit accumulator. -/
def cumprodAux (acc : ℚ) : List ℚ → List ℚ
  | [] => []
  | x :: xs => acc * x :: cumprodAux (acc * x) xs

/-- `np.cumprod`: running products. -/
def cumprod (l : List ℚ) : List ℚ := cumprodAux 1 l

/-- `np.maximum.accumulate`, with the running maximum as accumulator. -/
def runningMaxAux (m : ℚ) : List ℚ → List ℚ
  | [] => []
  | x :: xs => max m x :: runningMaxAux (max m x) xs

/-- `np.maximum.accumulate`: running maxima. -/
def runningMax : List ℚ → List ℚ
  | [] => []
  | x :: xs => x :: runningMaxAux x xs

/-- `np.max`: maximum of a list (0 for the empty list; numpy raises there,
and every use below is on a nonempty list). -/
def listMax : List ℚ → ℚ
  | [] => 0
  | x :: xs => xs.foldl max x

/-- The drawdown series of `calculate_performance_metrics` (lines 54-57):
`cumulative = cumprod(1 + returns)`, `running_max = maximum.accumulate(...)`,
`drawdowns = (running_max - cumulative) / running_max`. -/
def drawdownList (returns : List ℚ) : List ℚ :=
  List.zipWith (fun m c => (m - c) / m)
    (runningMax (cumprod (returns.map (fun r => 1 + r))))
    (cumprod (returns.map (fun r => 1 + r)))

/-- `max_drawdown = np.max(drawdowns)` (line 58). -/
def maxDrawdown (returns : List ℚ) : ℚ := listMax (drawdownList returns)

/-- `calculate_sortino_ratio` (`helpers_business.py` lines 20-29). -/
noncomputable def calculate_sortino_ratio (returns : List ℚ) (risk_free_rate : ℚ) : ℝ :=
  let excess_returns := returns.map (fun r => r - risk_free_rate / 252)
  let downside_volatility :=
    npStdAnnualized (returns.map (fun r => if r < 0 then r else 0))
  if downside_volatility ≠ 0 then
    ((npMean excess_returns : ℚ) : ℝ) * 252 / downside_volatility
  else 0

/-- The five benchmark-relative statistics computed in the branch at
`helpers_business.py` lines 61-81 when an equal-length benchmark is present. -/
structure BenchmarkStats where
  beta : ℚ
  alpha : ℝ
  r_squared : ℝ
  tracking_error : ℝ
  information_ratio : ℝ

/-- Body of the benchmark branch (`helpers_business.py` lines 62-81). -/
noncomputable def computeBenchmarkStats (returns b : List ℚ) (risk_free_rate : ℚ)
    (annualized_return : ℝ) : BenchmarkStats :=
  let covariance := sampleCov returns b
  let benchmark_variance := npVar b
  let beta : ℚ := if benchmark_variance ≠ 0 then covariance / benchmark_variance else 1
  let expected_return : ℝ :=
    ((risk_free_rate : ℚ) : ℝ) + ((beta : ℚ) : ℝ) *
      (((npMean b : ℚ) : ℝ) * 252 - ((risk_free_rate : ℚ) : ℝ))
  let alpha : ℝ := annualized_return - expected_return
  let r_squared : ℝ := npCorrcoef returns b ^ 2
  let tracking_error : ℝ := npStdAnnualized (List.zipWith (fun r s => r - s) returns b)
  let active_return : ℝ := annualized_return - ((npMean b : ℚ) : ℝ) * 252
  let information_ratio : ℝ :=
    if tracking_error ≠ 0 then active_return / tracking_error else 0
  ⟨beta, alpha, r_squared, tracking_error, information_ratio⟩

/-- The guard `benchmark_returns is not None and len(benchmark_returns) == len(returns)`
(line 61); the else-branch sets all five fields to `None` (line 83). -/
noncomputable def benchStatsOpt (returns : List ℚ) (risk_free_rate : ℚ)
    (annualized_return : ℝ) : Option (List ℚ) → Option BenchmarkStats
  | some b =>
      if b.length = returns.length then
        some (computeBenchmarkStats returns b risk_free_rate annualized_return)
      else none
  | none => none

/-- `total_return = prices[-1] / prices[0] - 1` (line 42). -/
def totalReturn (prices : List ℚ) : ℚ := prices.getLastD 0 / prices.headD 0 - 1

/-- `annualized_return = (1 + total_return) ** (252 / holding_period) - 1`
(line 44), with `holding_period = len(returns)` (line 43). -/
noncomputable def annualizedReturn (prices : List ℚ) : ℝ :=
  (1 + ((totalReturn prices : ℚ) : ℝ)) ^
    ((252 : ℝ) / ((calculate_returns prices).length : ℝ)) - 1

/-- `sharpe_ratio = mean(excess_returns) * 252 / volatility if volatility != 0
else 0` (lines 50-51), with `excess_returns = returns - risk_free_rate / 252`. -/
noncomputable def sharpeRatio (returns : List ℚ) (risk_free_rate : ℚ) : ℝ :=
  if npStdAnnualized returns ≠ 0 then
    ((npMean (returns.map (fun r => r - risk_free_rate / 252)) : ℚ) : ℝ) * 252 /
      npStdAnnualized returns
  else 0

/-- `calculate_performance_metrics` (`helpers_business.py` lines 32-99) after its
first two lines have extracted the ticker and the price list; each field is the
named local of the Python body, computed from the price list. -/
noncomputable def calculate_performance_metrics_core (ticker : String)
    (prices : List ℚ) (risk_free_rate : ℚ)
    (benchmark_returns : Option (List ℚ)) : ComputedMetrics :=
  { ticker := ticker
    period := toString (calculate_returns prices).length ++ "d"
    total_return := totalReturn prices
    annualized_return := annualizedReturn prices
    volatility := npStdAnnualized (calculate_returns prices)
    sharpe_ratio := sharpeRatio (calculate_returns prices) risk_free_rate
    sortino_ratio := calculate_sortino_ratio (calculate_returns prices) risk_free_rate
    max_drawdown := maxDrawdown (calculate_returns prices)
    beta := (benchStatsOpt (calculate_returns prices) risk_free_rate
      (annualizedReturn prices) benchmark_returns).map (fun s => s.beta)
    alpha := (benchStatsOpt (calculate_returns prices) risk_free_rate
      (annualizedReturn prices) benchmark_returns).map (fun s => s.alpha)
    r_squared := (benchStatsOpt (calculate_returns prices) risk_free_rate
      (annualizedReturn prices) benchmark_returns).map (fun s => s.r_squared)
    tracking_error := (benchStatsOpt (calculate_returns prices) risk_free_rate
      (annualizedReturn prices) benchmark_returns).map (fun s => s.tracking_error)
    information_ratio := (benchStatsOpt (calculate_returns prices) risk_free_rate
      (annualizedReturn prices) benchmark_returns).map (fun s => s.information_ratio) }

/-- `calculate_performance_metrics` on a list of price observations: its first
two lines read `price_data[0].ticker` and map `adj_close` over the list. -/
noncomputable def calculate_performance_metrics (price_data : List ETFPriceData)
    (risk_free_rate : ℚ) (benchmark_returns : Option (List ℚ)) : ComputedMetrics :=
  calculate_performance_metrics_core
    ((price_data.head?.map (fun d => d.ticker)).getD "")
    (price_data.map (fun d => d.adj_close))
    risk_free_rate benchmark_returns

/-- The concrete scenario of the spec: prices 100, 110, 99, 108.9 for instrument X. -/
def pdX : List ETFPriceData :=
  [⟨"X", 0, 100, none⟩, ⟨"X", 1, 110, none⟩, ⟨"X", 2, 99, none⟩,
   ⟨"X", 3, 1089/10, none⟩]

/-- The return series derived from the scenario prices. -/
def returnsX : List ℚ := calculate_returns (pdX.map (fun d => d.adj_close))

/-- A constant benchmark return series of the same length as `returnsX`. -/
def benchConst : List ℚ := [1/50, 1/50, 1/50]

/-- C1: the dataclass `PerformanceMetrics` of `src/model.py` does not have all
the fields that `calculate_performance_metrics` passes to its constructor: the
keyword arguments sortino_ratio, alpha, r_squared and information_ratio name no
field of the dataclass, so the assembly in step 9 raises a `TypeError` instead
of succeeding. -/
theorem performanceMetrics_assembly_mismatch :
    ("sortino_ratio" ∈ performanceMetricsAssemblyKwargs ∧
      "sortino_ratio" ∉ performanceMetricsModelFields) ∧
    ("alpha" ∈ performanceMetricsAssemblyKwargs ∧
      "alpha" ∉ performanceMetricsModelFields) ∧
    ("r_squared" ∈ performanceMetricsAssemblyKwargs ∧
      "r_squared" ∉ performanceMetricsModelFields) ∧
    ("information_ratio" ∈ performanceMetricsAssemblyKwargs ∧
      "information_ratio" ∉ performanceMetricsModelFields) ∧
    ¬ (∀ k ∈ performanceMetricsAssemblyKwargs, k ∈ performanceMetricsModelFields) := by
  decide

/-- C2 counterexample: `calculate_returns` performs no validation and never
raises.  On the length-1 series [1] it returns the empty list, and on [1, -2],
which contains a price below zero, it silently returns the return -3. -/
theorem calculate_returns_no_validation_cex :
    calculate_returns [(1 : ℚ)] = [] ∧
    calculate_returns [(1 : ℚ), -2] = [-3] := by
  refine ⟨rfl, ?_⟩
  norm_num [calculate_returns]

/-- The derived return series has one element fewer than the price series. -/
lemma calculate_returns_length (prices : List ℚ) :
    (calculate_returns prices).length = prices.length - 1 := by
  rw [calculate_returns, List.length_map, List.length_zip, List.length_tail]
  exact Nat.min_eq_right (Nat.sub_le _ _)

lemma metrics_period (pd : List ETFPriceData) (rf : ℚ) (b : Option (List ℚ)) :
    (calculate_performance_metrics pd rf b).period =
      toString (calculate_returns (pd.map (fun d => d.adj_close))).length ++ "d" := rfl

lemma metrics_max_drawdown (pd : List ETFPriceData) (rf : ℚ) (b : Option (List ℚ)) :
    (calculate_performance_metrics pd rf b).max_drawdown =
      maxDrawdown (calculate_returns (pd.map (fun d => d.adj_close))) := rfl

lemma metrics_volatility (pd : List ETFPriceData) (rf : ℚ) (b : Option (List ℚ)) :
    (calculate_performance_metrics pd rf b).volatility =
      npStdAnnualized (calculate_returns (pd.map (fun d => d.adj_close))) := rfl

lemma metrics_total_return (pd : List ETFPriceData) (rf : ℚ) (b : Option (List ℚ)) :
    (calculate_performance_metrics pd rf b).total_return =
      totalReturn (pd.map (fun d => d.adj_close)) := rfl

lemma metrics_sharpe (pd : List ETFPriceData) (rf : ℚ) (b : Option (List ℚ)) :
    (calculate_performance_metrics pd rf b).sharpe_ratio =
      sharpeRatio (calculate_returns (pd.map (fun d => d.adj_close))) rf := rfl

lemma metrics_sortino (pd : List ETFPriceData) (rf : ℚ) (b : Option (List ℚ)) :
    (calculate_performance_metrics pd rf b).sortino_ratio =
      calculate_sortino_ratio (calculate_returns (pd.map (fun d => d.adj_close))) rf := rfl

lemma metrics_beta (pd : List ETFPriceData) (rf : ℚ) (b : Option (List ℚ)) :
    (calculate_performance_metrics pd rf b).beta =
      (benchStatsOpt (calculate_returns (pd.map (fun d => d.adj_close))) rf
        (annualizedReturn (pd.map (fun d => d.adj_close))) b).map (fun s => s.beta) := rfl

lemma metrics_r_squared (pd : List ETFPriceData) (rf : ℚ) (b : Option (List ℚ)) :
    (calculate_performance_metrics pd rf b).r_squared =
      (benchStatsOpt (calculate_returns (pd.map (fun d => d.adj_close))) rf
        (annualizedReturn (pd.map (fun d => d.adj_close))) b).map
          (fun s => s.r_squared) := rfl

lemma metrics_tracking_error (pd : List ETFPriceData) (rf : ℚ) (b : Option (List ℚ)) :
    (calculate_performance_metrics pd rf b).tracking_error =
      (benchStatsOpt (calculate_returns (pd.map (fun d => d.adj_close))) rf
        (annualizedReturn (pd.map (fun d => d.adj_close))) b).map
          (fun s => s.tracking_error) := rfl

lemma metrics_information_ratio (pd : List ETFPriceData) (rf : ℚ) (b : Option (List ℚ)) :
    (calculate_performance_metrics pd rf b).information_ratio =
      (benchStatsOpt (calculate_returns (pd.map (fun d => d.adj_close))) rf
        (annualizedReturn (pd.map (fun d => d.adj_close))) b).map
          (fun s => s.information_ratio) := rfl

lemma benchStatsOpt_some_of_len {returns b : List ℚ} (rf : ℚ) (ann : ℝ)
    (h : b.length = returns.length) :
    benchStatsOpt returns rf ann (some b) =
      some (computeBenchmarkStats returns b rf ann) := by
  simp [benchStatsOpt, h]

lemma benchStatsOpt_none_of_len {returns b : List ℚ} (rf : ℚ) (ann : ℝ)
    (h : b.length ≠ returns.length) :
    benchStatsOpt returns rf ann (some b) = none := by
  simp [benchStatsOpt, h]

lemma computeBenchmarkStats_beta (returns b : List ℚ) (rf : ℚ) (ann : ℝ) :
    (computeBenchmarkStats returns b rf ann).beta =
      if npVar b ≠ 0 then sampleCov returns b / npVar b else 1 := rfl

lemma computeBenchmarkStats_r_squared (returns b : List ℚ) (rf : ℚ) (ann : ℝ) :
    (computeBenchmarkStats returns b rf ann).r_squared = npCorrcoef returns b ^ 2 := rfl

lemma computeBenchmarkStats_tracking_error (returns b : List ℚ) (rf : ℚ) (ann : ℝ) :
    (computeBenchmarkStats returns b rf ann).tracking_error =
      npStdAnnualized (List.zipWith (fun r s => r - s) returns b) := rfl

lemma computeBenchmarkStats_information_ratio (returns b : List ℚ) (rf : ℚ) (ann : ℝ) :
    (computeBenchmarkStats returns b rf ann).information_ratio =
      if npStdAnnualized (List.zipWith (fun r s => r - s) returns b) ≠ 0 then
        (ann - ((npMean b : ℚ) : ℝ) * 252) /
          npStdAnnualized (List.zipWith (fun r s => r - s) returns b)
      else 0 := rfl

/-- C6: a benchmark whose length differs from the derived return series is sent
by the guard to the same else-branch as an omitted benchmark: the computed
values are the same record with all five benchmark-relative fields absent
(`none`), and the branch itself raises nothing.  In the actual program no
result is ever returned, because the subsequent constructor call raises a
`TypeError` for every input (the defect recorded under C1); this theorem
evaluates the computation up to that point. -/
theorem benchmark_mismatch_eq_none (pd : List ETFPriceData) (rf : ℚ) (b : List ℚ)
    (h : b.length ≠ (calculate_returns (pd.map (fun d => d.adj_close))).length) :
    calculate_performance_metrics pd rf (some b) =
      calculate_performance_metrics pd rf none ∧
    (calculate_performance_metrics pd rf none).beta = none ∧
    (calculate_performance_metrics pd rf none).alpha = none ∧
    (calculate_performance_metrics pd rf none).r_squared = none ∧
    (calculate_performance_metrics pd rf none).tracking_error = none ∧
    (calculate_performance_metrics pd rf none).information_ratio = none := by
  refine ⟨?_, rfl, rfl, rfl, rfl, rfl⟩
  unfold calculate_performance_metrics calculate_performance_metrics_core
  rw [benchStatsOpt_none_of_len _ _ h]
  rfl

/-- C6 witness: on the scenario prices with a length-1 benchmark, the result
coincides with the benchmark-free call. -/
theorem benchmark_mismatch_eq_none_witness :
    calculate_performance_metrics pdX 0 (some [1/10]) =
      calculate_performance_metrics pdX 0 none ∧
    (calculate_performance_metrics pdX 0 none).beta = none ∧
    (calculate_performance_metrics pdX 0 none).alpha = none ∧
    (calculate_performance_metrics pdX 0 none).r_squared = none ∧
    (calculate_performance_metrics pdX 0 none).tracking_error = none ∧
    (calculate_performance_metrics pdX 0 none).information_ratio = none :=
  benchmark_mismatch_eq_none pdX 0 [1/10] (by decide)

/-- C9: the computation reads nothing outside its arguments; its output is a
function of the ticker column, the adjusted-close column, the risk-free rate
and the benchmark alone.  In particular two calls on identical inputs yield
identical outputs. -/
theorem metrics_depend_only_on_inputs (pd₁ pd₂ : List ETFPriceData) (rf : ℚ)
    (b : Option (List ℚ))
    (ht : pd₁.map (fun d => d.ticker) = pd₂.map (fun d => d.ticker))
    (hp : pd₁.map (fun d => d.adj_close) = pd₂.map (fun d => d.adj_close)) :
    calculate_performance_metrics pd₁ rf b = calculate_performance_metrics pd₂ rf b := by
  unfold calculate_performance_metrics
  rw [hp]
  have hh : pd₁.head?.map (fun d => d.ticker) = pd₂.head?.map (fun d => d.ticker) := by
    rw [← List.head?_map, ← List.head?_map, ht]
  rw [hh]

/-- C9 witness: two observation lists that agree on tickers and prices but
differ in dates and volumes produce the same record. -/
theorem metrics_depend_only_on_inputs_witness :
    calculate_performance_metrics
        [⟨"X", 0, 100, none⟩, ⟨"X", 1, 110, some 5⟩] (1/100) none =
      calculate_performance_metrics
        [⟨"X", 7, 100, some 1⟩, ⟨"X", 9, 110, none⟩] (1/100) none :=
  metrics_depend_only_on_inputs _ _ (1/100) none rfl rfl

/-- C4 counterexample: the input observations carry no period label at all
(the dataclass `ETFPriceData` has only ticker, date, adj_close and volume), and
the period of the result is the freshly computed string "3d" for the 4-point
scenario series; it is therefore not carried through from the input. -/
theorem period_not_carried_cex :
    "period" ∉ ETFPriceDataFields ∧
    (calculate_performance_metrics pdX 0 none).period = "3d" := by
  exact ⟨by decide, rfl⟩

/-- C4 amended: the ticker is carried through unchanged from the first input
observation, while the period label is recomputed by the engine as the string
`holding_period ++ "d"` where `holding_period` is the number of derived
returns, one less than the number of observations. -/
theorem ticker_carried_period_computed (d : ETFPriceData) (rest : List ETFPriceData)
    (rf : ℚ) (b : Option (List ℚ)) :
    (calculate_performance_metrics (d :: rest) rf b).ticker = d.ticker ∧
    (calculate_performance_metrics (d :: rest) rf b).period =
      toString ((d :: rest).length - 1) ++ "d" := by
  refine ⟨rfl, ?_⟩
  rw [metrics_period, calculate_returns_length, List.length_map]

/-- C2 amended: `calculate_returns` on a strictly positive price series of
length at least 2 returns the series of the n-1 simple returns
`price[i+1] / price[i] - 1`; no validation and no error path exists. -/
theorem calculate_returns_valid (prices : List ℚ) (h2 : 2 ≤ prices.length)
    (hpos : ∀ p ∈ prices, 0 < p) :
    (calculate_returns prices).length = prices.length - 1 ∧
    ∀ (i : ℕ) (hi : i + 1 < prices.length),
      (calculate_returns prices)[i]? = some (prices[i + 1] / prices[i] - 1) := by
  refine ⟨calculate_returns_length prices, ?_⟩
  intro i hi
  have hli : i < (calculate_returns prices).length := by
    rw [calculate_returns_length]; omega
  rw [List.getElem?_eq_getElem hli]
  congr 1
  simp only [calculate_returns, List.getElem_map, List.getElem_zip, List.getElem_tail]

lemma cumprodAux_pos {acc : ℚ} {l : List ℚ} (hacc : 0 < acc)
    (hl : ∀ x ∈ l, 0 < x) : ∀ c ∈ cumprodAux acc l, 0 < c := by
  induction l generalizing acc with
  | nil => intro c hc; simp [cumprodAux] at hc
  | cons x xs ih =>
    intro c hc
    have hx : 0 < x := hl x (List.mem_cons_self x xs)
    simp only [cumprodAux, List.mem_cons] at hc
    rcases hc with h | h
    · rw [h]; exact mul_pos hacc hx
    · exact ih (mul_pos hacc hx) (fun y hy => hl y (List.mem_cons_of_mem _ hy)) c h

lemma drawdown_zipWith_aux_nonneg (m : ℚ) (hm : 0 < m) (l : List ℚ)
    (hl : ∀ x ∈ l, 0 < x) :
    ∀ y ∈ List.zipWith (fun a c => (a - c) / a) (runningMaxAux m l) l, 0 ≤ y := by
  induction l generalizing m with
  | nil => intro y hy; simp [runningMaxAux] at hy
  | cons x xs ih =>
    intro y hy
    have hx : 0 < x := hl x (List.mem_cons_self x xs)
    have hmx : 0 < max m x := lt_of_lt_of_le hx (le_max_right m x)
    simp only [runningMaxAux, List.zipWith_cons_cons, List.mem_cons] at hy
    rcases hy with h | h
    · rw [h]
      exact div_nonneg (sub_nonneg.mpr (le_max_right m x)) (le_of_lt hmx)
    · exact ih (max m x) hmx (fun z hz => hl z (List.mem_cons_of_mem _ hz)) y h

lemma zip_runningMax_nonneg (l : List ℚ) (hl : ∀ x ∈ l, 0 < x) :
    ∀ y ∈ List.zipWith (fun a c => (a - c) / a) (runningMax l) l, 0 ≤ y := by
  cases l with
  | nil => intro y hy; simp at hy
  | cons x xs =>
    intro y hy
    have hx : 0 < x := hl x (List.mem_cons_self x xs)
    simp only [runningMax, List.zipWith_cons_cons, List.mem_cons] at hy
    rcases hy with h | h
    · rw [h]; simp
    · exact drawdown_zipWith_aux_nonneg x hx xs
        (fun z hz => hl z (List.mem_cons_of_mem _ hz)) y h

lemma le_foldl_max (l : List ℚ) : ∀ b : ℚ, b ≤ l.foldl max b := by
  induction l with
  | nil => intro b; exact le_refl b
  | cons x xs ih => intro b; exact le_trans (le_max_left b x) (ih (max b x))

lemma foldl_max_le (l : List ℚ) : ∀ b c : ℚ, (∀ x ∈ l, x ≤ c) → b ≤ c →
    l.foldl max b ≤ c := by
  induction l with
  | nil => intro b c _ hb; exact hb
  | cons x xs ih =>
    intro b c hl hb
    exact ih (max b x) c (fun z hz => hl z (List.mem_cons_of_mem _ hz))
      (max_le hb (hl x (List.mem_cons_self x xs)))

lemma listMax_nonneg {l : List ℚ} (h : ∀ x ∈ l, 0 ≤ x) : 0 ≤ listMax l := by
  cases l with
  | nil => exact le_refl 0
  | cons x xs => exact le_trans (h x (List.mem_cons_self x xs)) (le_foldl_max xs x)

lemma listMax_eq_zero {l : List ℚ} (h : ∀ x ∈ l, x = 0) : listMax l = 0 := by
  cases l with
  | nil => rfl
  | cons x xs =>
    apply le_antisymm
    · exact foldl_max_le xs x 0 (fun z hz => le_of_eq (h z (List.mem_cons_of_mem _ hz)))
        (le_of_eq (h x (List.mem_cons_self x xs)))
    · exact le_trans (le_of_eq (h x (List.mem_cons_self x xs)).symm) (le_foldl_max xs x)

lemma one_add_returns_pos {prices : List ℚ} (hpos : ∀ p ∈ prices, 0 < p) :
    ∀ r ∈ calculate_returns prices, 0 < 1 + r := by
  intro r hr
  rw [calculate_returns] at hr
  rcases List.mem_map.mp hr with ⟨p, hp, rfl⟩
  have h1 : 0 < p.1 := hpos p.1 (List.of_mem_zip hp).1
  have h2 : 0 < p.2 := hpos p.2 (List.mem_of_mem_tail (List.of_mem_zip hp).2)
  have h3 : 0 < p.2 / p.1 := div_pos h2 h1
  linarith

lemma drawdownList_nonneg {returns : List ℚ} (h : ∀ r ∈ returns, 0 < 1 + r) :
    ∀ y ∈ drawdownList returns, 0 ≤ y := by
  have hpos : ∀ c ∈ cumprod (returns.map (fun r => 1 + r)), 0 < c := by
    apply cumprodAux_pos one_pos
    intro x hx
    rcases List.mem_map.mp hx with ⟨r, hr, rfl⟩
    exact h r hr
  rw [drawdownList]
  exact zip_runningMax_nonneg _ hpos

lemma maxDrawdown_nonneg {returns : List ℚ} (h : ∀ r ∈ returns, 0 < 1 + r) :
    0 ≤ maxDrawdown returns :=
  listMax_nonneg (drawdownList_nonneg h)

lemma runningMaxAux_of_chain {m : ℚ} {l : List ℚ} (h : List.Chain (· ≤ ·) m l) :
    runningMaxAux m l = l := by
  induction l generalizing m with
  | nil => rfl
  | cons x xs ih =>
    rcases List.chain_cons.mp h with ⟨hmx, hxs⟩
    rw [runningMaxAux, max_eq_right hmx, ih hxs]

lemma runningMax_of_chain' {l : List ℚ} (h : List.Chain' (· ≤ ·) l) :
    runningMax l = l := by
  cases l with
  | nil => rfl
  | cons x xs => rw [runningMax, runningMaxAux_of_chain h]

lemma cumprodAux_chain {acc : ℚ} {l : List ℚ} (hacc : 0 < acc)
    (hl : ∀ x ∈ l, 1 ≤ x) : List.Chain (· ≤ ·) acc (cumprodAux acc l) := by
  induction l generalizing acc with
  | nil => exact List.Chain.nil
  | cons x xs ih =>
    have hx : 1 ≤ x := hl x (List.mem_cons_self x xs)
    have h1 : acc ≤ acc * x := le_mul_of_one_le_right (le_of_lt hacc) hx
    rw [cumprodAux]
    exact List.chain_cons.mpr ⟨h1, ih (lt_of_lt_of_le hacc h1)
      (fun y hy => hl y (List.mem_cons_of_mem _ hy))⟩

lemma chain_imp_chain' {a : ℚ} {l : List ℚ} (h : List.Chain (· ≤ ·) a l) :
    List.Chain' (· ≤ ·) l := by
  cases l with
  | nil => trivial
  | cons x xs => exact (List.chain_cons.mp h).2

lemma zipWith_drawdown_self (l : List ℚ) :
    List.zipWith (fun a c => (a - c) / a) l l = l.map (fun _ => 0) := by
  induction l with
  | nil => rfl
  | cons x xs ih => simp [List.zipWith_cons_cons, ih]

lemma maxDrawdown_eq_zero_of_nonneg_returns {returns : List ℚ}
    (h : ∀ r ∈ returns, 0 ≤ r) : maxDrawdown returns = 0 := by
  have hfac : ∀ x ∈ returns.map (fun r => 1 + r), 1 ≤ x := by
    intro x hx
    rcases List.mem_map.mp hx with ⟨r, hr, rfl⟩
    linarith [h r hr]
  have hchain : List.Chain' (· ≤ ·) (cumprod (returns.map (fun r => 1 + r))) :=
    chain_imp_chain' (cumprodAux_chain one_pos hfac)
  rw [maxDrawdown, drawdownList, runningMax_of_chain' hchain, zipWith_drawdown_self]
  apply listMax_eq_zero
  intro x hx
  rcases List.mem_map.mp hx with ⟨a, ha, h⟩
  exact h.symm

lemma chain'_zip_tail {R : ℚ → ℚ → Prop} (l : List ℚ) (h : List.Chain' R l) :
    ∀ p ∈ l.zip l.tail, R p.1 p.2 := by
  induction l with
  | nil => intro p hp; simp at hp
  | cons x xs ih =>
    cases xs with
    | nil => intro p hp; simp at hp
    | cons y ys =>
      intro p hp
      rw [List.tail_cons, List.zip_cons_cons] at hp
      rcases List.mem_cons.mp hp with h1 | h1
      · rw [h1]; exact (List.chain'_cons.mp h).1
      · exact ih (List.chain'_cons.mp h).2 p h1

lemma returns_pos_of_chain {prices : List ℚ} (hpos : ∀ p ∈ prices, 0 < p)
    (hmono : List.Chain' (· < ·) prices) :
    ∀ r ∈ calculate_returns prices, 0 < r := by
  intro r hr
  rw [calculate_returns] at hr
  rcases List.mem_map.mp hr with ⟨p, hp, rfl⟩
  have h12 := chain'_zip_tail prices hmono p hp
  have h1 : 0 < p.1 := hpos p.1 (List.of_mem_zip hp).1
  have hlt : (1 : ℚ) < p.2 / p.1 := (one_lt_div h1).mpr h12
  linarith

/-- C5: for a valid price series the maximum drawdown computed from the
cumulative growth factors and their running maximum is nonnegative, and it is
zero when the price series is strictly increasing. -/
theorem maxDrawdown_nonneg_and_increasing_zero (pd : List ETFPriceData) (rf : ℚ)
    (b : Option (List ℚ)) (hpos : ∀ d ∈ pd, 0 < d.adj_close)
    (hlen : 2 ≤ pd.length) :
    0 ≤ (calculate_performance_metrics pd rf b).max_drawdown ∧
    (List.Chain' (· < ·) (pd.map (fun d => d.adj_close)) →
      (calculate_performance_metrics pd rf b).max_drawdown = 0) := by
  have hp : ∀ p ∈ pd.map (fun d => d.adj_close), 0 < p := by
    intro p hp
    rcases List.mem_map.mp hp with ⟨d, hd, rfl⟩
    exact hpos d hd
  rw [metrics_max_drawdown]
  refine ⟨maxDrawdown_nonneg (one_add_returns_pos hp), ?_⟩
  intro hmono
  exact maxDrawdown_eq_zero_of_nonneg_returns
    (fun r hr => le_of_lt (returns_pos_of_chain hp hmono r hr))

/-- C5 witness: on the strictly increasing series 10, 11, 13 the maximum
drawdown is nonnegative and equal to zero. -/
theorem maxDrawdown_nonneg_and_increasing_zero_witness :
    0 ≤ (calculate_performance_metrics
      [⟨"Y", 0, 10, none⟩, ⟨"Y", 1, 11, none⟩, ⟨"Y", 2, 13, none⟩] 0 none).max_drawdown ∧
    (calculate_performance_metrics
      [⟨"Y", 0, 10, none⟩, ⟨"Y", 1, 11, none⟩, ⟨"Y", 2, 13, none⟩] 0 none).max_drawdown
        = 0 := by
  have h := maxDrawdown_nonneg_and_increasing_zero
    [⟨"Y", 0, 10, none⟩, ⟨"Y", 1, 11, none⟩, ⟨"Y", 2, 13, none⟩] 0 none
    (by norm_num) (by norm_num)
  exact ⟨h.1, h.2 (by norm_num [List.chain'_cons])⟩

lemma npMean_zero {l : List ℚ} (h : ∀ x ∈ l, x = 0) : npMean l = 0 := by
  rw [npMean, List.sum_eq_zero h, zero_div]

lemma npVar_zero {l : List ℚ} (h : ∀ x ∈ l, x = 0) : npVar l = 0 := by
  apply npMean_zero
  intro x hx
  rcases List.mem_map.mp hx with ⟨a, ha, rfl⟩
  rw [h a ha, npMean_zero h]
  norm_num

lemma npStdAnnualized_zero {l : List ℚ} (h : npVar l = 0) : npStdAnnualized l = 0 := by
  rw [npStdAnnualized, h]
  norm_num

lemma returns_zero_of_const {prices : List ℚ} {c : ℚ} (hc : c ≠ 0)
    (h : ∀ x ∈ prices, x = c) : ∀ r ∈ calculate_returns prices, r = 0 := by
  intro r hr
  rw [calculate_returns] at hr
  rcases List.mem_map.mp hr with ⟨p, hp, rfl⟩
  rw [h p.1 (List.of_mem_zip hp).1,
    h p.2 (List.mem_of_mem_tail (List.of_mem_zip hp).2), div_self hc, sub_self]

lemma getLastD_of_all {c : ℚ} : ∀ (l : List ℚ) (d : ℚ), l ≠ [] →
    (∀ x ∈ l, x = c) → l.getLastD d = c
  | [], _, hne, _ => absurd rfl hne
  | [x], d, _, h => by simpa using h x (by simp)
  | x :: y :: ys, d, _, h => by
      rw [List.getLastD_cons]
      exact getLastD_of_all (y :: ys) x (by simp)
        (fun z hz => h z (List.mem_cons_of_mem _ hz))

lemma totalReturn_const {prices : List ℚ} {c : ℚ} (hc : c ≠ 0) (hne : prices ≠ [])
    (h : ∀ x ∈ prices, x = c) : totalReturn prices = 0 := by
  cases prices with
  | nil => exact absurd rfl hne
  | cons x xs =>
    rw [totalReturn, getLastD_of_all (x :: xs) 0 hne h, List.headD_cons,
      h x (List.mem_cons_self x xs), div_self hc, sub_self]

lemma calculate_sortino_ratio_eq (returns : List ℚ) (rf : ℚ) :
    calculate_sortino_ratio returns rf =
      if npStdAnnualized (returns.map (fun r => if r < 0 then r else 0)) ≠ 0 then
        ((npMean (returns.map (fun r => r - rf / 252)) : ℚ) : ℝ) * 252 /
          npStdAnnualized (returns.map (fun r => if r < 0 then r else 0))
      else 0 := rfl

lemma sortino_zero_of_returns_zero {returns : List ℚ} (rf : ℚ)
    (h : ∀ r ∈ returns, r = 0) : calculate_sortino_ratio returns rf = 0 := by
  have hd : npStdAnnualized (returns.map (fun r => if r < 0 then r else 0)) = 0 := by
    apply npStdAnnualized_zero
    apply npVar_zero
    intro x hx
    rcases List.mem_map.mp hx with ⟨r, hr, rfl⟩
    rw [h r hr]
    norm_num
  rw [calculate_sortino_ratio_eq, hd]
  simp

lemma sharpeRatio_zero_of_vol_zero {returns : List ℚ} (rf : ℚ)
    (h : npStdAnnualized returns = 0) : sharpeRatio returns rf = 0 := by
  rw [sharpeRatio, h]
  simp

/-- C8: on a constant price series of length at least 2 the engine resolves the
zero-volatility and zero-downside-volatility divisions to the fallback 0:
volatility, Sharpe ratio, Sortino ratio and total return are all 0, and no
error is raised. -/
theorem constant_prices_zero_metrics (pd : List ETFPriceData) (c rf : ℚ)
    (b : Option (List ℚ)) (hc : 0 < c) (hlen : 2 ≤ pd.length)
    (hconst : ∀ d ∈ pd, d.adj_close = c) :
    (calculate_performance_metrics pd rf b).volatility = 0 ∧
    (calculate_performance_metrics pd rf b).sharpe_ratio = 0 ∧
    (calculate_performance_metrics pd rf b).sortino_ratio = 0 ∧
    (calculate_performance_metrics pd rf b).total_return = 0 := by
  have hc0 : c ≠ 0 := ne_of_gt hc
  have hprices : ∀ x ∈ pd.map (fun d => d.adj_close), x = c := by
    intro x hx
    rcases List.mem_map.mp hx with ⟨d, hd, rfl⟩
    exact hconst d hd
  have hne : pd.map (fun d => d.adj_close) ≠ [] := by
    apply List.ne_nil_of_length_pos
    rw [List.length_map]
    omega
  have hr0 : ∀ r ∈ calculate_returns (pd.map (fun d => d.adj_close)), r = 0 :=
    returns_zero_of_const hc0 hprices
  have hvar : npVar (calculate_returns (pd.map (fun d => d.adj_close))) = 0 :=
    npVar_zero hr0
  refine ⟨?_, ?_, ?_, ?_⟩
  · rw [metrics_volatility]
    exact npStdAnnualized_zero hvar
  · rw [metrics_sharpe]
    exact sharpeRatio_zero_of_vol_zero rf (npStdAnnualized_zero hvar)
  · rw [metrics_sortino]
    exact sortino_zero_of_returns_zero rf hr0
  · rw [metrics_total_return]
    exact totalReturn_const hc0 hne hprices

/-- C8 witness: the constant series 5, 5 yields volatility, Sharpe, Sortino and
total return all 0. -/
theorem constant_prices_zero_metrics_witness :
    (calculate_performance_metrics [⟨"Z", 0, 5, none⟩, ⟨"Z", 1, 5, none⟩]
      (1/100) none).volatility = 0 ∧
    (calculate_performance_metrics [⟨"Z", 0, 5, none⟩, ⟨"Z", 1, 5, none⟩]
      (1/100) none).sharpe_ratio = 0 ∧
    (calculate_performance_metrics [⟨"Z", 0, 5, none⟩, ⟨"Z", 1, 5, none⟩]
      (1/100) none).sortino_ratio = 0 ∧
    (calculate_performance_metrics [⟨"Z", 0, 5, none⟩, ⟨"Z", 1, 5, none⟩]
      (1/100) none).total_return = 0 :=
  constant_prices_zero_metrics [⟨"Z", 0, 5, none⟩, ⟨"Z", 1, 5, none⟩] 5 (1/100) none
    (by norm_num) (by norm_num) (by norm_num)

lemma returnsX_eq : calculate_returns (pdX.map (fun d => d.adj_close)) =
    [1/10, -1/10, 1/10] := by
  norm_num [pdX, calculate_returns]

lemma npVar_returnsX : npVar (calculate_returns (pdX.map (fun d => d.adj_close))) =
    2/225 := by
  rw [returnsX_eq]
  norm_num [npVar, npMean]

/-- C7: on the scenario prices 100, 110, 99, 108.9 with risk-free rate 0 the
derived returns are [0.1, -0.1, 0.1], the total return is 0.089, the holding
period is 3, the cumulative growth factors are [1.10, 0.99, 1.089] with running
maxima [1.10, 1.10, 1.10], the maximum drawdown is exactly 0.1 and is attained
at index 1 of the drawdown series, and the annualised volatility
sqrt(2/225)*sqrt(252) lies strictly between 1.4966 and 1.4967. -/
theorem scenario_metrics :
    returnsX = [1/10, -1/10, 1/10] ∧
    (calculate_performance_metrics pdX 0 none).total_return = 89/1000 ∧
    returnsX.length = 3 ∧
    cumprod (returnsX.map (fun r => 1 + r)) = [11/10, 99/100, 1089/1000] ∧
    runningMax (cumprod (returnsX.map (fun r => 1 + r))) = [11/10, 11/10, 11/10] ∧
    drawdownList returnsX = [0, 1/10, 1/100] ∧
    (drawdownList returnsX)[1]? = some (1/10) ∧
    (calculate_performance_metrics pdX 0 none).max_drawdown = 1/10 ∧
    1.4966 < (calculate_performance_metrics pdX 0 none).volatility ∧
    (calculate_performance_metrics pdX 0 none).volatility < 1.4967 := by
  have hret : returnsX = [1/10, -1/10, 1/10] := by rw [returnsX]; exact returnsX_eq
  have hcum : cumprod (returnsX.map (fun r => 1 + r)) = [11/10, 99/100, 1089/1000] := by
    rw [hret]
    norm_num [cumprod, cumprodAux]
  have hrm : runningMax (cumprod (returnsX.map (fun r => 1 + r))) =
      [11/10, 11/10, 11/10] := by
    rw [hcum]
    norm_num [runningMax, runningMaxAux, max_def]
  have hdl : drawdownList returnsX = [0, 1/10, 1/100] := by
    have hrm2 : runningMax [11/10, 99/100, (1089 : ℚ)/1000] = [11/10, 11/10, 11/10] := by
      norm_num [runningMax, runningMaxAux, max_def]
    rw [drawdownList]
    rw [show (returnsX.map (fun r => 1 + r)) =
      ((calculate_returns (pdX.map (fun d => d.adj_close))).map (fun r => 1 + r)) from rfl]
    rw [show cumprod ((calculate_returns (pdX.map (fun d => d.adj_close))).map
      (fun r => 1 + r)) = [11/10, 99/100, 1089/1000] from hcum]
    rw [hrm2]
    norm_num [List.zipWith_cons_cons]
  have hmd : maxDrawdown returnsX = 1/10 := by
    rw [maxDrawdown, hdl]
    norm_num [listMax, max_def]
  have hvol : (calculate_performance_metrics pdX 0 none).volatility =
      Real.sqrt (56/25) := by
    rw [metrics_volatility, npStdAnnualized, npVar_returnsX,
      ← Real.sqrt_mul (by norm_num : (0:ℝ) ≤ ((2/225 : ℚ) : ℝ))]
    norm_num
  refine ⟨hret, ?_, ?_, hcum, hrm, hdl, ?_, ?_, ?_, ?_⟩
  · rw [metrics_total_return]
    norm_num [totalReturn, pdX]
  · rw [hret]
    rfl
  · rw [hdl]
    rfl
  · rw [metrics_max_drawdown]
    exact hmd
  · rw [hvol]
    rw [show (1.4966 : ℝ) = 14966/10000 by norm_num]
    rw [Real.lt_sqrt (by norm_num)]
    norm_num
  · rw [hvol]
    rw [Real.sqrt_lt' (by norm_num)]
    norm_num

/-- C2 amended witness: on the valid series [100, 110] the single return is
110/100 - 1 = 1/10. -/
theorem calculate_returns_valid_witness :
    (calculate_returns [(100 : ℚ), 110]).length = [(100 : ℚ), 110].length - 1 ∧
    ∀ (i : ℕ) (hi : i + 1 < ([(100 : ℚ), 110] : List ℚ).length),
      (calculate_returns [(100 : ℚ), 110])[i]? =
        some ([(100 : ℚ), 110][i + 1] / [(100 : ℚ), 110][i] - 1) :=
  calculate_returns_valid [100, 110] (by norm_num) (by norm_num)

lemma zip_self_map (l : List ℚ) (f : ℚ × ℚ → ℚ) :
    (l.zip l).map f = l.map (fun a => f (a, a)) := by
  induction l with
  | nil => rfl
  | cons x xs ih => simp [List.zip_cons_cons, ih]

lemma sampleCov_self (x : List ℚ) :
    sampleCov x x =
      (x.map (fun a => (a - npMean x) ^ 2)).sum / ((x.length : ℚ) - 1) := by
  simp only [sampleCov, zip_self_map, ← pow_two]

lemma npVar_eq (x : List ℚ) :
    npVar x = (x.map (fun a => (a - npMean x) ^ 2)).sum / (x.length : ℚ) := by
  rw [npVar, npMean, List.length_map]

lemma devSq_sum_nonneg (x : List ℚ) :
    (0 : ℚ) ≤ (x.map (fun a => (a - npMean x) ^ 2)).sum := by
  apply List.sum_nonneg
  intro y hy
  rcases List.mem_map.mp hy with ⟨a, _, rfl⟩
  positivity

lemma devSq_sum_ne_zero {x : List ℚ} (hv : npVar x ≠ 0) :
    (x.map (fun a => (a - npMean x) ^ 2)).sum ≠ 0 := by
  intro h0
  apply hv
  rw [npVar_eq, h0, zero_div]

lemma beta_self {x : List ℚ} (h2 : 2 ≤ x.length) (hv : npVar x ≠ 0) :
    sampleCov x x / npVar x = (x.length : ℚ) / ((x.length : ℚ) - 1) := by
  have hc : (2:ℚ) ≤ (x.length : ℚ) := by exact_mod_cast h2
  have hn1 : ((x.length : ℚ) - 1) ≠ 0 := by linarith
  have hn0 : (x.length : ℚ) ≠ 0 := by linarith
  have hS : (x.map (fun a => (a - npMean x) ^ 2)).sum ≠ 0 := devSq_sum_ne_zero hv
  rw [sampleCov_self, npVar_eq]
  field_simp
  ring

lemma sampleCov_self_pos {x : List ℚ} (h2 : 2 ≤ x.length) (hv : npVar x ≠ 0) :
    0 < sampleCov x x := by
  have hc : (2:ℚ) ≤ (x.length : ℚ) := by exact_mod_cast h2
  have hn1 : (0:ℚ) < (x.length : ℚ) - 1 := by linarith
  rw [sampleCov_self]
  exact div_pos
    (lt_of_le_of_ne (devSq_sum_nonneg x) (Ne.symm (devSq_sum_ne_zero hv))) hn1

lemma npCorrcoef_self_sq {x : List ℚ} (h2 : 2 ≤ x.length) (hv : npVar x ≠ 0) :
    npCorrcoef x x ^ 2 = 1 := by
  have hs : 0 < sampleCov x x := sampleCov_self_pos h2 hv
  rw [npCorrcoef, corrDenomSq]
  rw [show ((sampleCov x x * sampleCov x x : ℚ) : ℝ) =
    ((sampleCov x x : ℚ) : ℝ) * ((sampleCov x x : ℚ) : ℝ) by push_cast; ring]
  rw [Real.sqrt_mul_self (by exact_mod_cast le_of_lt hs)]
  rw [div_self (by exact_mod_cast ne_of_gt hs)]
  norm_num

lemma zipWith_sub_self (l : List ℚ) :
    List.zipWith (fun r s => r - s) l l = l.map (fun _ => 0) := by
  induction l with
  | nil => rfl
  | cons x xs ih => simp [List.zipWith_cons_cons, ih]

lemma trackingError_self (x : List ℚ) :
    npStdAnnualized (List.zipWith (fun r s => r - s) x x) = 0 := by
  apply npStdAnnualized_zero
  apply npVar_zero
  rw [zipWith_sub_self]
  intro y hy
  rcases List.mem_map.mp hy with ⟨a, _, h⟩
  exact h.symm

/-- C3 counterexample: on the scenario prices with benchmark equal to the
derived return series [0.1, -0.1, 0.1], the computed beta is 3/2, not
approximately 1: `np.cov` divides by n-1 while `np.var` divides by n, so an
identical benchmark yields beta = n/(n-1) = 3/2 for n = 3 returns. -/
theorem beta_identical_benchmark_cex :
    (calculate_performance_metrics pdX 0 (some [1/10, -1/10, 1/10])).beta =
      some (3/2) ∧ (3 : ℚ)/2 ≠ 1 := by
  refine ⟨?_, by norm_num⟩
  have hlen : ([1/10, -1/10, (1:ℚ)/10]).length =
      (calculate_returns (pdX.map (fun d => d.adj_close))).length := by
    rw [returnsX_eq]
  rw [metrics_beta, benchStatsOpt_some_of_len _ _ hlen, Option.map_some',
    computeBenchmarkStats_beta, returnsX_eq]
  have hv : npVar [1/10, -1/10, (1:ℚ)/10] = 2/225 := by norm_num [npVar, npMean]
  have hsc : sampleCov [1/10, -1/10, (1:ℚ)/10] [1/10, -1/10, (1:ℚ)/10] = 1/75 := by
    norm_num [sampleCov, npMean]
  rw [hv, hsc]
  norm_num

/-- C3 amended: with an equal-length benchmark, the code computes beta as the
sample covariance (ddof = 1) over the population variance (ddof = 0), default 1
on zero benchmark variance; for a benchmark identical to the derived return
series of n returns with nonzero variance this gives beta = n/(n-1) (not 1),
while r_squared = 1, tracking_error = 0 and information_ratio falls back to 0. -/
theorem benchmark_identical_stats (pd : List ETFPriceData) (rf : ℚ)
    (h2 : 2 ≤ (calculate_returns (pd.map (fun d => d.adj_close))).length)
    (hv : npVar (calculate_returns (pd.map (fun d => d.adj_close))) ≠ 0) :
    (calculate_performance_metrics pd rf
        (some (calculate_returns (pd.map (fun d => d.adj_close))))).beta =
      some (((calculate_returns (pd.map (fun d => d.adj_close))).length : ℚ) /
        (((calculate_returns (pd.map (fun d => d.adj_close))).length : ℚ) - 1)) ∧
    (calculate_performance_metrics pd rf
        (some (calculate_returns (pd.map (fun d => d.adj_close))))).r_squared =
      some 1 ∧
    (calculate_performance_metrics pd rf
        (some (calculate_returns (pd.map (fun d => d.adj_close))))).tracking_error =
      some 0 ∧
    (calculate_performance_metrics pd rf
        (some (calculate_returns (pd.map (fun d => d.adj_close))))).information_ratio =
      some 0 := by
  refine ⟨?_, ?_, ?_, ?_⟩
  · rw [metrics_beta, benchStatsOpt_some_of_len _ _ rfl, Option.map_some',
      computeBenchmarkStats_beta, if_pos hv, beta_self h2 hv]
  · rw [metrics_r_squared, benchStatsOpt_some_of_len _ _ rfl, Option.map_some',
      computeBenchmarkStats_r_squared, npCorrcoef_self_sq h2 hv]
  · rw [metrics_tracking_error, benchStatsOpt_some_of_len _ _ rfl, Option.map_some',
      computeBenchmarkStats_tracking_error, trackingError_self]
  · rw [metrics_information_ratio, benchStatsOpt_some_of_len _ _ rfl, Option.map_some',
      computeBenchmarkStats_information_ratio, trackingError_self]
    simp

/-- C3 amended witness: on the scenario prices with the derived returns as
benchmark, beta is n/(n-1) for n = 3, r_squared is 1, tracking error is 0 and
the information ratio falls back to 0. -/
theorem benchmark_identical_stats_witness :
    (calculate_performance_metrics pdX 0
        (some (calculate_returns (pdX.map (fun d => d.adj_close))))).beta =
      some (((calculate_returns (pdX.map (fun d => d.adj_close))).length : ℚ) /
        (((calculate_returns (pdX.map (fun d => d.adj_close))).length : ℚ) - 1)) ∧
    (calculate_performance_metrics pdX 0
        (some (calculate_returns (pdX.map (fun d => d.adj_close))))).r_squared =
      some 1 ∧
    (calculate_performance_metrics pdX 0
        (some (calculate_returns (pdX.map (fun d => d.adj_close))))).tracking_error =
      some 0 ∧
    (calculate_performance_metrics pdX 0
        (some (calculate_returns (pdX.map (fun d => d.adj_close))))).information_ratio =
      some 0 :=
  benchmark_identical_stats pdX 0 (by rw [returnsX_eq]; norm_num)
    (by rw [npVar_returnsX]; norm_num)

/-- C10: with a valid input and an equal-length constant benchmark (zero
benchmark variance) the beta fallback 1 is applied, but the denominator of the
correlation whose square defines r_squared is zero: `np.corrcoef` divides by
`sqrt(cov(x,x) * cov(y,y)) = 0`, so the produced r_squared is NaN (undefined),
not a fallback constant.  In this embedding the zero denominator is stated
explicitly. -/
theorem r_squared_undefined_zero_benchmark_variance :
    npVar benchConst = 0 ∧
    (calculate_performance_metrics pdX 0 (some benchConst)).beta = some 1 ∧
    corrDenomSq (calculate_returns (pdX.map (fun d => d.adj_close))) benchConst = 0 ∧
    Real.sqrt ((corrDenomSq (calculate_returns (pdX.map (fun d => d.adj_close)))
      benchConst : ℚ) : ℝ) = 0 := by
  have hvb : npVar benchConst = 0 := by norm_num [npVar, npMean, benchConst]
  have hlen : benchConst.length =
      (calculate_returns (pdX.map (fun d => d.adj_close))).length := by
    rw [returnsX_eq]
    rfl
  have hscb : sampleCov benchConst benchConst = 0 := by
    norm_num [sampleCov, npMean, benchConst]
  have hcds : corrDenomSq (calculate_returns (pdX.map (fun d => d.adj_close)))
      benchConst = 0 := by
    rw [corrDenomSq, hscb, mul_zero]
  refine ⟨hvb, ?_, hcds, ?_⟩
  · rw [metrics_beta, benchStatsOpt_some_of_len _ _ hlen, Option.map_some',
      computeBenchmarkStats_beta, hvb]
    simp
  · rw [hcds]
    simp
